import Mathlib

/-!
Verification of the farmcalc market-monitoring core (scoring engine,
fill-probability model, alert debouncer, rate limiter, proposal lifecycle)
against its natural-language specification.

The Python sources under `src/farmcalc` are shallowly embedded below:
floats become `ℚ`, timestamps become `ℚ` (seconds), Python dicts holding
fixed keys become structures, and in-place mutation becomes explicit state
passing.  Function and field names follow the source
(`src/farmcalc/services/pricing.py`, `scoring.py`, `fill_model.py`,
`watcher.py`, `proposals.py`, `calc.py`).
-/

namespace Farmcalc

/-- Python `round(x, 2)` (round to two decimals, ties to even), modelled on
exact rationals.  `rheInt x` is round-half-to-even to an integer; parity is
tested with `% 2 = 0` so the definition evaluates by `decide`. -/
def rheInt (x : ℚ) : ℤ :=
  if x - ⌊x⌋ < 1/2 then ⌊x⌋
  else if 1/2 < x - ⌊x⌋ then ⌊x⌋ + 1
  else if ⌊x⌋ % 2 = 0 then ⌊x⌋ else ⌊x⌋ + 1

/-- `round(x, 2)` from Python, on rationals: round `100·x` half-to-even. -/
def round2 (x : ℚ) : ℚ := (rheInt (x * 100) : ℚ) / 100

theorem rheInt_ge_floor (x : ℚ) : ⌊x⌋ ≤ rheInt x := by
  unfold rheInt
  split
  · exact le_refl _
  · split
    · exact le_of_lt (lt_add_one _)
    · split
      · exact le_refl _
      · exact le_of_lt (lt_add_one _)

theorem rheInt_le (x : ℚ) (n : ℤ) (h : x ≤ n) : rheInt x ≤ n := by
  have hfl : ⌊x⌋ ≤ n := Int.floor_le_floor h |>.trans_eq (Int.floor_intCast n)
  by_cases hx : x = ⌊x⌋
  · have : rheInt x = ⌊x⌋ := by
      unfold rheInt
      have hz : x - (⌊x⌋ : ℚ) = 0 := by rw [← hx]; ring
      rw [hz]
      norm_num
    omega
  · -- x is not an integer, so ⌊x⌋ < x ≤ n, hence ⌊x⌋ + 1 ≤ n
    have hlt : (⌊x⌋ : ℚ) < x := lt_of_le_of_ne (Int.floor_le x) (fun h => hx h.symm)
    have hstep : ⌊x⌋ + 1 ≤ n := by
      by_contra hcon
      push_neg at hcon
      have : n ≤ ⌊x⌋ := by omega
      have : (n : ℚ) ≤ (⌊x⌋ : ℚ) := by exact_mod_cast this
      linarith
    have hub : rheInt x ≤ ⌊x⌋ + 1 := by
      unfold rheInt
      split
      · omega
      · split
        · omega
        · split <;> omega
    omega

theorem rheInt_ge (x : ℚ) (n : ℤ) (h : (n : ℚ) ≤ x) : n ≤ rheInt x := by
  have : n ≤ ⌊x⌋ := Int.le_floor.mpr h
  have := rheInt_ge_floor x
  omega

theorem round2_mem_Icc (x : ℚ) (h0 : 0 ≤ x) (h1 : x ≤ 100) :
    0 ≤ round2 x ∧ round2 x ≤ 100 := by
  unfold round2
  have hlo : (0 : ℤ) ≤ rheInt (x * 100) := rheInt_ge _ 0 (by push_cast; nlinarith)
  have hhi : rheInt (x * 100) ≤ 10000 := rheInt_le _ 10000 (by push_cast; nlinarith)
  constructor
  · have : (0 : ℚ) ≤ (rheInt (x * 100) : ℚ) := by exact_mod_cast hlo
    linarith
  · have : (rheInt (x * 100) : ℚ) ≤ 10000 := by exact_mod_cast hhi
    linarith

/-- Position side.  The source branches on `side.upper() == "LONG"` and treats
every other string as SHORT, so the two-valued branching is captured by an
inductive type. -/
inductive Side
  | LONG
  | SHORT
deriving DecidableEq, Repr

/-! ## src/farmcalc/services/pricing.py -/

/-- `clamp_maker_price(price, best_bid, best_ask, side, order_type)`:
clamp a limit price to be maker-safe.  `order_type` is `"open"` or
`"close"` as in the source. -/
def clamp_maker_price (price best_bid best_ask : ℚ) (side : Side)
    (order_type : String) : ℚ :=
  match side with
  | Side.LONG =>
    if order_type = "open" then
      -- LONG open = BUY -> must be <= best_bid
      min price best_bid
    else
      -- LONG close = SELL -> must be >= best_ask
      max price best_ask
  | Side.SHORT =>
    if order_type = "open" then
      -- SHORT open = SELL -> must be >= best_ask
      max price best_ask
    else
      -- SHORT close = BUY -> must be <= best_bid
      min price best_bid

/-- `calculate_limit_price(side, best_bid, best_ask, offset_bps, order_type)`:
raw offset price, then clamped maker-safe. -/
def calculate_limit_price (side : Side) (best_bid best_ask offset_bps : ℚ)
    (order_type : String) : ℚ :=
  let offset_mult :=
    if 0 ≤ offset_bps then 1 - offset_bps / 10000 else 1 + |offset_bps| / 10000
  let limit_px :=
    match side with
    | Side.LONG =>
      if order_type = "open" then best_bid * offset_mult
      else best_ask * (1 + offset_bps / 10000)
    | Side.SHORT =>
      if order_type = "open" then best_ask * (1 + offset_bps / 10000)
      else best_bid * offset_mult
  clamp_maker_price limit_px best_bid best_ask side order_type

/-- `suggested_limit_prices(side, best_bid, best_ask, open_offset_bps,
close_offset_bps)` returns `(open_limit_px, close_limit_px)`. -/
def suggested_limit_prices (side : Side) (best_bid best_ask open_offset_bps
    close_offset_bps : ℚ) : ℚ × ℚ :=
  (calculate_limit_price side best_bid best_ask open_offset_bps "open",
   calculate_limit_price side best_bid best_ask close_offset_bps "close")

theorem offset_mult_eq (offset_bps : ℚ) :
    (if 0 ≤ offset_bps then 1 - offset_bps / 10000 else 1 + |offset_bps| / 10000)
      = 1 - offset_bps / 10000 := by
  split
  · rfl
  · rename_i h
    rw [abs_of_neg (lt_of_not_le h)]
    ring

/-- C7: for every side, order purpose, offset and book, the suggested limit
price is the raw offset price (buys: `bid·(1−offset)`, sells:
`ask·(1+offset)`) clamped so it never crosses the book: LONG-open and
SHORT-close (buys) end up `≤ best_bid`, SHORT-open and LONG-close (sells)
end up `≥ best_ask`. -/
theorem C7_maker_safe_clamp (best_bid best_ask offset_bps : ℚ) :
    (calculate_limit_price Side.LONG best_bid best_ask offset_bps "open"
        = min (best_bid * (1 - offset_bps / 10000)) best_bid
      ∧ calculate_limit_price Side.LONG best_bid best_ask offset_bps "open" ≤ best_bid)
    ∧ (calculate_limit_price Side.SHORT best_bid best_ask offset_bps "open"
        = max (best_ask * (1 + offset_bps / 10000)) best_ask
      ∧ best_ask ≤ calculate_limit_price Side.SHORT best_bid best_ask offset_bps "open")
    ∧ (calculate_limit_price Side.LONG best_bid best_ask offset_bps "close"
        = max (best_ask * (1 + offset_bps / 10000)) best_ask
      ∧ best_ask ≤ calculate_limit_price Side.LONG best_bid best_ask offset_bps "close")
    ∧ (calculate_limit_price Side.SHORT best_bid best_ask offset_bps "close"
        = min (best_bid * (1 - offset_bps / 10000)) best_bid
      ∧ calculate_limit_price Side.SHORT best_bid best_ask offset_bps "close" ≤ best_bid) := by
  refine ⟨⟨?_, ?_⟩, ⟨?_, ?_⟩, ⟨?_, ?_⟩, ⟨?_, ?_⟩⟩ <;>
    simp [calculate_limit_price, clamp_maker_price, offset_mult_eq,
      min_le_right, le_max_right]

/-! ## src/farmcalc/services/scoring.py -/

/-- Individual score components. -/
structure ScoreComponents where
  spread_score : ℚ
  mark_dev_score : ℚ
  oracle_dev_score : ℚ
  funding_score : ℚ
  liquidity_score : ℚ
  depth_score : ℚ
deriving DecidableEq, Repr

/-- Weights for score components (source defaults). -/
structure ScoreWeights where
  spread : ℚ := 25/100
  mark_dev : ℚ := 20/100
  oracle_dev : ℚ := 20/100
  funding : ℚ := 15/100
  liquidity : ℚ := 10/100
  depth : ℚ := 10/100
deriving DecidableEq, Repr

/-- Thresholds for scoring (source defaults). -/
structure ScoreThresholds where
  spread_bad_bps : ℚ := 10
  mark_bad_bps : ℚ := 20
  oracle_bad_bps : ℚ := 30
  funding_bad : ℚ := 1/10000
  liq_bad : ℚ := 100000
  depth_bad : ℚ := 1000
  spread_good_bps : ℚ := 1
  mark_good_bps : ℚ := 2
  oracle_good_bps : ℚ := 5
  funding_good : ℚ := 1/100000
  liq_good : ℚ := 10000000
  depth_good : ℚ := 10000
deriving DecidableEq, Repr

/-- `calculate_spread_bps(best_bid, best_ask)`. -/
def calculate_spread_bps (best_bid best_ask : ℚ) : ℚ :=
  let mid := (best_bid + best_ask) / 2
  if mid ≤ 0 then 9999
  else (best_ask - best_bid) / mid * 10000

/-- `calculate_mark_deviation_bps(mark_px, mid_px)`. -/
def calculate_mark_deviation_bps (mark_px mid_px : ℚ) : ℚ :=
  if mid_px ≤ 0 then 9999
  else |mark_px - mid_px| / mid_px * 10000

/-- `calculate_oracle_deviation_bps(oracle_px, mid_px)`. -/
def calculate_oracle_deviation_bps (oracle_px mid_px : ℚ) : ℚ :=
  if mid_px ≤ 0 then 9999
  else |oracle_px - mid_px| / mid_px * 10000

/-- `_linear_score(value, good_threshold, bad_threshold)`: 100 at/below good,
0 at/above bad, linear between. -/
def linear_score (value good_threshold bad_threshold : ℚ) : ℚ :=
  if value ≤ good_threshold then 100
  else if bad_threshold ≤ value then 0
  else 100 * (1 - (value - good_threshold) / (bad_threshold - good_threshold))

/-- `_reverse_linear_score(value, good_threshold, bad_threshold)`:
higher is better. -/
def reverse_linear_score (value good_threshold bad_threshold : ℚ) : ℚ :=
  if good_threshold ≤ value then 100
  else if value ≤ bad_threshold then 0
  else 100 * ((value - bad_threshold) / (good_threshold - bad_threshold))

/-- `calculate_component_scores`. -/
def calculate_component_scores (spread_bps mark_dev_bps oracle_dev_bps
    funding_abs liquidity depth_top : ℚ) (thresholds : ScoreThresholds) :
    ScoreComponents where
  spread_score := linear_score spread_bps thresholds.spread_good_bps thresholds.spread_bad_bps
  mark_dev_score := linear_score mark_dev_bps thresholds.mark_good_bps thresholds.mark_bad_bps
  oracle_dev_score := linear_score oracle_dev_bps thresholds.oracle_good_bps thresholds.oracle_bad_bps
  funding_score := linear_score funding_abs thresholds.funding_good thresholds.funding_bad
  liquidity_score := reverse_linear_score liquidity thresholds.liq_good thresholds.liq_bad
  depth_score := reverse_linear_score depth_top thresholds.depth_good thresholds.depth_bad

/-- `calculate_total_score(components, weights)`: weighted sum rounded to
two decimals. -/
def calculate_total_score (components : ScoreComponents) (weights : ScoreWeights) : ℚ :=
  round2 (components.spread_score * weights.spread +
    components.mark_dev_score * weights.mark_dev +
    components.oracle_dev_score * weights.oracle_dev +
    components.funding_score * weights.funding +
    components.liquidity_score * weights.liquidity +
    components.depth_score * weights.depth)

/-- One entry of a `SafeEntryScore.reasons` list.  The source builds
formatted strings ("spread high (… bps, score: …)" / "spread ok"); the
embedding keeps the component label and the raw numbers interpolated into
the string, abstracting the surrounding text. -/
inductive Reason
  | limiting (component : String) (metricValue score : ℚ)
  | ok (component : String)
deriving DecidableEq, Repr

/-- The raw metrics dict built by `evaluate_safe_entry` (fixed keys). -/
structure Metrics where
  spread_bps : ℚ := 0
  mark_dev_bps : ℚ := 0
  oracle_dev_bps : ℚ := 0
  funding : ℚ := 0
  funding_abs : ℚ := 0
  funding_hourly : ℚ := 0
  liquidity : ℚ := 0
  depth_top : ℚ := 0
  mark_px : ℚ := 0
  mid_px : ℚ := 0
  oracle_px : ℚ := 0
  best_bid : ℚ := 0
  best_ask : ℚ := 0

/-- The ordered `score_map` of `_get_limiting_factors`. -/
def scoreMap (c : ScoreComponents) : List (String × ℚ) :=
  [("spread", c.spread_score), ("mark_dev", c.mark_dev_score),
   ("oracle_dev", c.oracle_dev_score), ("funding", c.funding_score),
   ("liquidity", c.liquidity_score), ("depth", c.depth_score)]

/-- The raw metric value interpolated into each limiting-factor string. -/
def metricFor (m : Metrics) (component : String) : ℚ :=
  if component = "spread" then m.spread_bps
  else if component = "mark_dev" then m.mark_dev_bps
  else if component = "oracle_dev" then m.oracle_dev_bps
  else if component = "funding" then m.funding_abs
  else if component = "liquidity" then m.liquidity
  else m.depth_top

/-- `_get_limiting_factors(components, metrics, threshold)`: components
scoring below the threshold, sorted ascending by score, top 3, each with its
raw metric value.  (The dead `factors` list built at the top of the source
function is never used and is omitted.) -/
def get_limiting_factors (c : ScoreComponents) (m : Metrics) (threshold : ℚ) :
    List Reason :=
  let sorted_factors :=
    (((scoreMap c).filter (fun p => decide (p.2 < threshold))).mergeSort
      (fun a b => decide (a.2 ≤ b.2))).take 3
  (sorted_factors.map (fun p => Reason.limiting p.1 (metricFor m p.1) p.2)).take 3

/-- The positive "ok" reasons appended by `evaluate_safe_entry` when the
composite passes: one entry per component still at/above the threshold. -/
def ok_reasons (c : ScoreComponents) (score_threshold : ℚ) : List Reason :=
  (if score_threshold ≤ c.spread_score then [Reason.ok "spread ok"] else []) ++
  (if score_threshold ≤ c.mark_dev_score then [Reason.ok "mark ok"] else []) ++
  (if score_threshold ≤ c.oracle_dev_score then [Reason.ok "oracle ok"] else []) ++
  (if score_threshold ≤ c.funding_score then [Reason.ok "funding ok"] else []) ++
  (if score_threshold ≤ c.liquidity_score then [Reason.ok "liquidity ok"] else []) ++
  (if score_threshold ≤ c.depth_score then [Reason.ok "depth ok"] else [])

/-- L2 book input of `evaluate_safe_entry`: parsed best bid/ask/mid plus the
optional raw `levels` lists ((price, size) per level, bids then asks) read by
`_calculate_depth_top`.  Dict-shaped level entries are abstracted away. -/
structure L2Book where
  best_bid : ℚ := 0
  best_ask : ℚ := 0
  mid : ℚ := 0
  levels : Option (List (ℚ × ℚ) × List (ℚ × ℚ)) := none

/-- `_calculate_depth_top(l2_book, top_k=3)`: sum of the sizes of the first
`top_k` bid and ask levels; defaults to 5000 when no depth is found. -/
def calculate_depth_top (l2_book : L2Book) (top_k : ℕ := 3) : ℚ :=
  let depth :=
    match l2_book.levels with
    | some (bids, asks) =>
        ((bids.take top_k).map Prod.snd).sum + ((asks.take top_k).map Prod.snd).sum
    | none => 0
  if depth = 0 then 5000 else depth

/-- The per-coin market-context dict consumed by `evaluate_safe_entry`. -/
structure CoinData where
  markPx : ℚ := 0
  oraclePx : ℚ := 0
  funding : ℚ := 0
  dayNtlVlm : ℚ := 0

/-- `WatchConfig` from `src/farmcalc/models/domain.py` (source defaults). -/
structure WatchConfig where
  enabled : Bool := false
  poll_interval_sec : ℚ := 5
  top_n : ℕ := 25
  side : String := "either"
  open_offset_bps : ℚ := 0
  close_offset_bps : ℚ := 0
  funding_kind : String := "hourly"
  cooldown_sec : ℚ := 300
  sentiment_enabled : Bool := false
  telegram_enabled : Bool := true

/-- One entry of the `safe_sides` list of a passing evaluation. -/
structure SideInfo where
  side : Side
  open_limit_px : ℚ
  close_limit_px : ℚ
  best_bid : ℚ
  best_ask : ℚ

/-- `SafeEntryScore`. -/
structure SafeEntryScore where
  total_score : ℚ
  component_scores : ScoreComponents
  metrics : Metrics
  safe_sides : List SideInfo
  passed : Bool
  reasons : List Reason
  threshold : ℚ := 80

/-- `evaluate_safe_entry(coin, coin_data, l2_book, config, score_threshold,
weights, thresholds)`.  Returns `none` when the book is missing or
`mid <= 0`. -/
def evaluate_safe_entry (coin_data : CoinData) (l2_book : Option L2Book)
    (config : WatchConfig) (score_threshold : ℚ := 80)
    (weights : ScoreWeights := {}) (thresholds : ScoreThresholds := {}) :
    Option SafeEntryScore :=
  match l2_book with
  | none => none
  | some book =>
    if book.mid ≤ 0 then none
    else
      let funding_hourly :=
        if config.funding_kind = "8h" then coin_data.funding / 8
        else coin_data.funding
      let spread_bps := calculate_spread_bps book.best_bid book.best_ask
      let mark_dev_bps := calculate_mark_deviation_bps coin_data.markPx book.mid
      let oracle_dev_bps := calculate_oracle_deviation_bps coin_data.oraclePx book.mid
      let funding_abs := |funding_hourly|
      let liquidity := coin_data.dayNtlVlm
      let depth_top := calculate_depth_top book 3
      let components := calculate_component_scores spread_bps mark_dev_bps
        oracle_dev_bps funding_abs liquidity depth_top thresholds
      let total_score := calculate_total_score components weights
      let metrics : Metrics :=
        { spread_bps := spread_bps, mark_dev_bps := mark_dev_bps,
          oracle_dev_bps := oracle_dev_bps, funding := coin_data.funding,
          funding_abs := funding_abs, funding_hourly := funding_hourly,
          liquidity := liquidity, depth_top := depth_top,
          mark_px := coin_data.markPx, mid_px := book.mid,
          oracle_px := coin_data.oraclePx, best_bid := book.best_bid,
          best_ask := book.best_ask }
      let passed := decide (score_threshold ≤ total_score)
      let reasons :=
        if passed then ok_reasons components score_threshold
        else get_limiting_factors components metrics score_threshold
      let safe_sides :=
        if passed then
          (if config.side = "long" ∨ config.side = "either" then
            let p := suggested_limit_prices Side.LONG book.best_bid book.best_ask
              config.open_offset_bps config.close_offset_bps
            [{ side := Side.LONG, open_limit_px := p.1, close_limit_px := p.2,
               best_bid := book.best_bid, best_ask := book.best_ask }]
          else []) ++
          (if config.side = "short" ∨ config.side = "either" then
            let p := suggested_limit_prices Side.SHORT book.best_bid book.best_ask
              config.open_offset_bps config.close_offset_bps
            [{ side := Side.SHORT, open_limit_px := p.1, close_limit_px := p.2,
               best_bid := book.best_bid, best_ask := book.best_ask }]
          else [])
        else []
      some { total_score := total_score, component_scores := components,
             metrics := metrics, safe_sides := safe_sides, passed := passed,
             reasons := reasons, threshold := score_threshold }

theorem linear_score_bounds (v g b : ℚ) :
    0 ≤ linear_score v g b ∧ linear_score v g b ≤ 100 := by
  unfold linear_score
  split_ifs with h1 h2
  · norm_num
  · norm_num
  · have hg : g < v := lt_of_not_le h1
    have hb : v < b := lt_of_not_le h2
    have hd : 0 < b - g := by linarith
    have hr0 : 0 < (v - g) / (b - g) := div_pos (by linarith) hd
    have hr1 : (v - g) / (b - g) < 1 := (div_lt_one hd).mpr (by linarith)
    constructor <;> nlinarith

theorem reverse_linear_score_bounds (v g b : ℚ) :
    0 ≤ reverse_linear_score v g b ∧ reverse_linear_score v g b ≤ 100 := by
  unfold reverse_linear_score
  split_ifs with h1 h2
  · norm_num
  · norm_num
  · have hg : v < g := lt_of_not_le h1
    have hb : b < v := lt_of_not_le h2
    have hd : 0 < g - b := by linarith
    have hr0 : 0 < (v - b) / (g - b) := div_pos (by linarith) hd
    have hr1 : (v - b) / (g - b) < 1 := (div_lt_one hd).mpr (by linarith)
    constructor <;> nlinarith

/-- C5: every component score lies in [0,100] (for any thresholds), and with
the default weights in use (which sum to 1) the composite score also lies in
[0,100]. -/
theorem C5_score_ranges (sp md od f l d : ℚ) (t : ScoreThresholds) :
    (0 ≤ (calculate_component_scores sp md od f l d t).spread_score ∧
      (calculate_component_scores sp md od f l d t).spread_score ≤ 100) ∧
    (0 ≤ (calculate_component_scores sp md od f l d t).mark_dev_score ∧
      (calculate_component_scores sp md od f l d t).mark_dev_score ≤ 100) ∧
    (0 ≤ (calculate_component_scores sp md od f l d t).oracle_dev_score ∧
      (calculate_component_scores sp md od f l d t).oracle_dev_score ≤ 100) ∧
    (0 ≤ (calculate_component_scores sp md od f l d t).funding_score ∧
      (calculate_component_scores sp md od f l d t).funding_score ≤ 100) ∧
    (0 ≤ (calculate_component_scores sp md od f l d t).liquidity_score ∧
      (calculate_component_scores sp md od f l d t).liquidity_score ≤ 100) ∧
    (0 ≤ (calculate_component_scores sp md od f l d t).depth_score ∧
      (calculate_component_scores sp md od f l d t).depth_score ≤ 100) ∧
    (0 ≤ calculate_total_score (calculate_component_scores sp md od f l d t) {} ∧
      calculate_total_score (calculate_component_scores sp md od f l d t) {} ≤ 100) := by
  obtain ⟨h1a, h1b⟩ := linear_score_bounds sp t.spread_good_bps t.spread_bad_bps
  obtain ⟨h2a, h2b⟩ := linear_score_bounds md t.mark_good_bps t.mark_bad_bps
  obtain ⟨h3a, h3b⟩ := linear_score_bounds od t.oracle_good_bps t.oracle_bad_bps
  obtain ⟨h4a, h4b⟩ := linear_score_bounds f t.funding_good t.funding_bad
  obtain ⟨h5a, h5b⟩ := reverse_linear_score_bounds l t.liq_good t.liq_bad
  obtain ⟨h6a, h6b⟩ := reverse_linear_score_bounds d t.depth_good t.depth_bad
  refine ⟨⟨h1a, h1b⟩, ⟨h2a, h2b⟩, ⟨h3a, h3b⟩, ⟨h4a, h4b⟩, ⟨h5a, h5b⟩, ⟨h6a, h6b⟩, ?_⟩
  exact round2_mem_Icc _ (by simp only [calculate_component_scores]; nlinarith)
    (by simp only [calculate_component_scores]; nlinarith)

/-- C4 counterexample: with `funding_kind = "8h"` and a signed funding rate
of 8, the rate scored is `8 / 8 = 1`, not the halved value `8 / 2 = 4` the
claim describes. -/
theorem C4_counterexample :
    (evaluate_safe_entry { funding := 8 }
        (some { best_bid := 100, best_ask := 100, mid := 100 })
        { funding_kind := "8h" } 80 {} {}).map (fun r => r.metrics.funding_hourly)
      = some 1 ∧ ¬((8 : ℚ) / 2 = 1) := by
  constructor
  · norm_num [evaluate_safe_entry]
  · norm_num

/-- C4 amended: when `funding_kind == "8h"` the signed funding rate is
divided by 8 (not halved) to an hourly-equivalent before scoring; otherwise
it is used unchanged; the funding component is scored on the absolute value
of the converted rate. -/
theorem C4_amended_funding_conversion (cd : CoinData) (book : L2Book)
    (cfg : WatchConfig) (thr : ℚ) (w : ScoreWeights) (t : ScoreThresholds) :
    (evaluate_safe_entry cd (some book) cfg thr w t).map
        (fun r => (r.metrics.funding_hourly, r.metrics.funding_abs,
          r.component_scores.funding_score))
      = if book.mid ≤ 0 then none
        else
          let fh := if cfg.funding_kind = "8h" then cd.funding / 8 else cd.funding
          some (fh, |fh|, linear_score |fh| t.funding_good t.funding_bad) := by
  by_cases h : book.mid ≤ 0
  · simp [evaluate_safe_entry, h]
  · simp [evaluate_safe_entry, h, calculate_component_scores]

/-- The score interpolated into a reason string (0 for "ok" entries, which
carry no score). -/
def reasonScore : Reason → ℚ
  | Reason.limiting _ _ s => s
  | Reason.ok _ => 0

/-- C9 counterexample: a passing evaluation in which all six components meet
the threshold produces 6 "ok" reasons — the pass branch has no `[:3]`
truncation, so the claim "the reasons list contains at most 3 entries" is
false. -/
theorem C9_counterexample :
    (evaluate_safe_entry
        { markPx := 100, oraclePx := 100, funding := 0, dayNtlVlm := 10000000 }
        (some { best_bid := 100, best_ask := 100, mid := 100,
                levels := some ([(100, 6000)], [(100, 6000)]) })
        {} 80 {} {}).map (fun r => (r.passed, r.reasons.length))
      = some (true, 6) ∧ ¬((6 : ℕ) ≤ 3) := by
  constructor
  · norm_num [evaluate_safe_entry, calculate_spread_bps,
      calculate_mark_deviation_bps, calculate_oracle_deviation_bps,
      calculate_depth_top, calculate_component_scores, linear_score,
      reverse_linear_score, calculate_total_score, round2, rheInt,
      ok_reasons]
  · decide

/-- C9 amended: when the evaluation fails, the reasons are at most 3 entries
— the lowest-scoring sub-threshold components, sorted ascending by score,
with their raw metric values; when it passes, the reasons are one "ok"
confirmation per component still at or above the threshold — up to 6
entries, not truncated to 3. -/
theorem C9_amended_reasons (c : ScoreComponents) (m : Metrics) (thr : ℚ)
    (cd : CoinData) (book : Option L2Book) (cfg : WatchConfig)
    (w : ScoreWeights) (t : ScoreThresholds) :
    (get_limiting_factors c m thr).length ≤ 3 ∧
    (∀ r ∈ get_limiting_factors c m thr,
      ∃ name s, r = Reason.limiting name (metricFor m name) s ∧ s < thr) ∧
    List.Pairwise (fun a b => reasonScore a ≤ reasonScore b)
      (get_limiting_factors c m thr) ∧
    (ok_reasons c thr).length =
      ((scoreMap c).filter (fun p => decide (thr ≤ p.2))).length ∧
    (ok_reasons c thr).length ≤ 6 ∧
    (evaluate_safe_entry cd book cfg thr w t).map (fun r => r.reasons) =
      (evaluate_safe_entry cd book cfg thr w t).map (fun r =>
        if r.passed then ok_reasons r.component_scores r.threshold
        else get_limiting_factors r.component_scores r.metrics r.threshold) := by
  refine ⟨?_, ?_, ?_, ?_, ?_, ?_⟩
  · unfold get_limiting_factors
    simp [List.length_take]
  · intro r hr
    unfold get_limiting_factors at hr
    obtain ⟨p, hp, hpr⟩ := List.mem_map.mp (List.take_subset _ _ hr)
    have hp' : p ∈ ((scoreMap c).filter (fun p => decide (p.2 < thr))).mergeSort
        (fun a b => decide (a.2 ≤ b.2)) := List.take_subset _ _ hp
    rw [List.mem_mergeSort] at hp'
    have := List.of_mem_filter hp'
    exact ⟨p.1, p.2, hpr.symm, of_decide_eq_true this⟩
  · unfold get_limiting_factors
    have hs : List.Pairwise (fun a b : String × ℚ => decide (a.2 ≤ b.2) = true)
        (((scoreMap c).filter (fun p => decide (p.2 < thr))).mergeSort
          (fun a b => decide (a.2 ≤ b.2))) := by
      apply List.sorted_mergeSort
      · intro a b cc hab hbc
        simp only [decide_eq_true_eq] at *
        exact le_trans hab hbc
      · intro a b
        simp only [Bool.or_eq_true, decide_eq_true_eq]
        exact le_total a.2 b.2
    have hs3 := hs.sublist (List.take_sublist 3 _)
    have hmap : List.Pairwise (fun a b => reasonScore a ≤ reasonScore b)
        ((((scoreMap c).filter (fun p => decide (p.2 < thr))).mergeSort
          (fun a b => decide (a.2 ≤ b.2))).take 3 |>.map
            (fun p => Reason.limiting p.1 (metricFor m p.1) p.2)) := by
      rw [List.pairwise_map]
      refine hs3.imp ?_
      intro a b h
      simpa [reasonScore] using of_decide_eq_true h
    exact hmap.sublist (List.take_sublist 3 _)
  · unfold ok_reasons scoreMap
    split_ifs <;> simp_all
  · unfold ok_reasons
    split_ifs <;> simp_all
  · rcases book with _ | b
    · rfl
    · by_cases h : b.mid ≤ 0
      · simp [evaluate_safe_entry, h]
      · simp [evaluate_safe_entry, h]

/-! ## src/farmcalc/services/fill_model.py -/

/-- A market snapshot as recorded by `FillModelService.add_snapshot`. -/
structure Snapshot where
  mid : ℚ := 0
  bid : ℚ := 0
  ask : ℚ := 0
  spread : ℚ := 0
  depth_top : ℚ := 0
deriving DecidableEq, Repr

/-- `FillCalibration` (source defaults). -/
structure FillCalibration where
  base_prob : ℚ := 4/5
  spread_factor : ℚ := -(1/2)
  depth_factor : ℚ := 3/10
  volatility_factor : ℚ := -(1/5)
  offset_factor : ℚ := 2/5
deriving DecidableEq, Repr

/-- `calculate_micro_volatility(snapshots, window=5)`: average relative
mid-price change over the recent window, capped at 1 (0.01 = 1% saturates). -/
def calculate_micro_volatility (snapshots : List Snapshot) (window : ℕ := 5) : ℚ :=
  if snapshots.length < 2 then 0
  else
    let recent :=
      if window < snapshots.length then snapshots.drop (snapshots.length - window)
      else snapshots
    if recent.length < 2 then 0
    else
      let mid_prices := (recent.map Snapshot.mid).filter (fun mp => decide (0 < mp))
      if mid_prices.length < 2 then 0
      else
        let changes := (mid_prices.zip mid_prices.tail).filterMap
          (fun pq => if 0 < pq.1 then some (|pq.2 - pq.1| / pq.1) else none)
        if changes = [] then 0
        else min (changes.sum / changes.length / (1/100)) 1

/-- `estimate_fill_probability(spread_bps, depth_top, notional_size,
offset_bps, snapshots, calibration, sentiment_bias)`.  `snapshots = []`
models Python's `None`-or-empty (both falsy). -/
def estimate_fill_probability (spread_bps depth_top notional_size offset_bps : ℚ)
    (snapshots : List Snapshot := []) (calibration : FillCalibration := {})
    (sentiment_bias : Option String := none) : ℚ :=
  let prob := calibration.base_prob
  -- Spread effect: 0 bps -> 1.0, 10 bps -> 0.0
  let spread_norm := max 0 (1 - spread_bps / 10)
  let prob := prob + calibration.spread_factor * (1 - spread_norm)
  -- Depth effect: 10k -> 1.0, 1k -> 0.0
  let depth_norm := min 1 (max 0 ((depth_top - 1000) / 9000))
  let prob := prob + calibration.depth_factor * depth_norm
  -- Size vs depth penalty (skipped entirely when depth_top <= 0)
  let prob :=
    if 0 < depth_top then prob - 1/5 * min 1 (notional_size / depth_top) else prob
  -- Volatility effect
  let prob :=
    if snapshots ≠ [] then
      prob + calibration.volatility_factor * calculate_micro_volatility snapshots 5
    else prob
  -- Offset effect: 0 bps -> 0.0, 50 bps -> 1.0
  let offset_norm := min 1 (offset_bps / 50)
  let prob := prob + calibration.offset_factor * offset_norm
  -- Weak sentiment nudge
  let prob :=
    match sentiment_bias with
    | some b => if b = "LONG" then prob + 1/50
                else if b = "SHORT" then prob - 1/50 else prob
    | none => prob
  max 0 (min 1 prob)

/-- `FillHistory`. -/
structure FillHistory where
  coin : String
  snapshots : List Snapshot := []
  feedback_count : ℕ := 0
  filled_count : ℕ := 0
  missed_count : ℕ := 0
  max_snapshots : ℕ := 20
deriving DecidableEq, Repr

/-- `update_calibration_from_feedback(history, action, filled)`: increments
the cumulative counters on the history (mutated in place in the source, so
the updated history is returned alongside the fresh calibration). -/
def update_calibration_from_feedback (history : FillHistory) (_action : String)
    (filled : Bool) : FillHistory × FillCalibration :=
  let history := { history with feedback_count := history.feedback_count + 1 }
  let history :=
    if filled then { history with filled_count := history.filled_count + 1 }
    else { history with missed_count := history.missed_count + 1 }
  let total : ℕ := history.filled_count + history.missed_count
  if 0 < total then
    let observed_rate := (history.filled_count : ℚ) / (total : ℚ)
    let calibration : FillCalibration := {}
    (history,
      { calibration with
          base_prob := 7/10 * calibration.base_prob + 3/10 * observed_rate })
  else (history, {})

/-- Association-list lookup, modelling Python `dict.get`. -/
def assocLookup {α : Type} : List (String × α) → String → Option α
  | [], _ => none
  | (k, v) :: rest, key => if k = key then some v else assocLookup rest key

/-- Association-list insert-or-replace, modelling `dict[key] = value`. -/
def assocUpsert {α : Type} : List (String × α) → String → α → List (String × α)
  | [], key, value => [(key, value)]
  | (k, v) :: rest, key, value =>
      if k = key then (key, value) :: rest else (k, v) :: assocUpsert rest key value

theorem assocLookup_upsert {α : Type} (l : List (String × α)) (k : String) (v : α) :
    assocLookup (assocUpsert l k v) k = some v := by
  induction l with
  | nil => simp [assocLookup, assocUpsert]
  | cons kv rest ih =>
    by_cases h : kv.1 = k
    · simp [assocLookup, assocUpsert, h]
    · simp [assocLookup, assocUpsert, h, ih]

/-- The mutable maps of `FillModelService` (`_histories`, `_calibrations`). -/
structure FillModelService where
  histories : List (String × FillHistory) := []
  calibrations : List (String × FillCalibration) := []
deriving DecidableEq, Repr

/-- `FillModelService.get_history`: get or lazily create a coin's history. -/
def get_history (svc : FillModelService) (coin : String) :
    FillModelService × FillHistory :=
  match assocLookup svc.histories coin with
  | some h => (svc, h)
  | none =>
      let h : FillHistory := { coin := coin }
      ({ svc with histories := svc.histories ++ [(coin, h)] }, h)

/-- `FillModelService.record_feedback(coin, action, filled)`. -/
def record_feedback (svc : FillModelService) (coin action : String)
    (filled : Bool) : FillModelService :=
  let sh := get_history svc coin
  let hc := update_calibration_from_feedback sh.2 action filled
  { histories := assocUpsert sh.1.histories coin hc.1,
    calibrations := assocUpsert sh.1.calibrations coin hc.2 }

/-- `estimate_fill_probability` written as a single clamped sum. -/
theorem estimate_fill_probability_eq (sp dt n o : ℚ) (snaps : List Snapshot)
    (cal : FillCalibration) (bias : Option String) :
    estimate_fill_probability sp dt n o snaps cal bias =
      max 0 (min 1 (cal.base_prob
        + cal.spread_factor * (1 - max 0 (1 - sp / 10))
        + cal.depth_factor * min 1 (max 0 ((dt - 1000) / 9000))
        - (if 0 < dt then 1/5 * min 1 (n / dt) else 0)
        + (if snaps ≠ [] then
            cal.volatility_factor * calculate_micro_volatility snaps 5 else 0)
        + cal.offset_factor * min 1 (o / 50)
        + (match bias with
           | some b => if b = "LONG" then 1/50
                       else if b = "SHORT" then -(1/50) else 0
           | none => 0))) := by
  cases bias with
  | none => simp only [estimate_fill_probability]; split_ifs <;> ring_nf
  | some b => simp only [estimate_fill_probability]; split_ifs <;> ring_nf

theorem clamp01_nonneg (x : ℚ) : 0 ≤ max 0 (min 1 x) := le_max_left _ _

theorem clamp01_le_one (x : ℚ) : max 0 (min 1 x) ≤ 1 :=
  max_le (by norm_num) (min_le_left _ _)

theorem clamp01_mono {x y : ℚ} (h : x ≤ y) :
    max 0 (min 1 x) ≤ max 0 (min 1 y) :=
  max_le_max le_rfl (min_le_min le_rfl h)

/-- C6 counterexample: increasing `depth_top` from 0 to 1 (all else fixed,
notional 1000, default calibration) drops the estimate from 0.8 to 0.6,
because the size-vs-depth penalty is skipped entirely at `depth_top <= 0`
— so "increasing depth_top never decreases the result" is false. -/
theorem C6_counterexample :
    estimate_fill_probability 0 0 1000 0 [] {} none = 4/5 ∧
    estimate_fill_probability 0 1 1000 0 [] {} none = 3/5 ∧
    ¬((4 : ℚ)/5 ≤ 3/5) := by
  refine ⟨?_, ?_, by norm_num⟩ <;> norm_num [estimate_fill_probability]

/-- C6 amended: with the default calibration the estimate always lies in
[0,1]; increasing `offset_bps` never decreases it and increasing
`spread_bps` never increases it (all inputs); increasing `depth_top` never
decreases it provided the depths are positive and `notional_size` is
nonnegative (at `depth_top <= 0` the size-vs-depth penalty is skipped, so
crossing from zero to positive depth can decrease the estimate). -/
theorem C6_amended_fill_probability (sp sp' dt dt' n o o' : ℚ)
    (snaps : List Snapshot) (bias : Option String) :
    (0 ≤ estimate_fill_probability sp dt n o snaps {} bias ∧
      estimate_fill_probability sp dt n o snaps {} bias ≤ 1) ∧
    (o ≤ o' → estimate_fill_probability sp dt n o snaps {} bias ≤
      estimate_fill_probability sp dt n o' snaps {} bias) ∧
    (sp ≤ sp' → estimate_fill_probability sp' dt n o snaps {} bias ≤
      estimate_fill_probability sp dt n o snaps {} bias) ∧
    (0 < dt → dt ≤ dt' → 0 ≤ n →
      estimate_fill_probability sp dt n o snaps {} bias ≤
        estimate_fill_probability sp dt' n o snaps {} bias) := by
  simp only [estimate_fill_probability_eq]
  refine ⟨⟨clamp01_nonneg _, clamp01_le_one _⟩, ?_, ?_, ?_⟩
  · intro h
    apply clamp01_mono
    have h1 : min 1 (o / 50) ≤ min 1 (o' / 50) :=
      min_le_min le_rfl (by linarith)
    linarith
  · intro h
    apply clamp01_mono
    have h1 : max 0 (1 - sp' / 10) ≤ max 0 (1 - sp / 10) :=
      max_le_max le_rfl (by linarith)
    linarith
  · intro hdt hle hn
    have hdt' : 0 < dt' := lt_of_lt_of_le hdt hle
    rw [if_pos hdt, if_pos hdt']
    apply clamp01_mono
    have hdn : min 1 (max 0 ((dt - 1000) / 9000)) ≤
        min 1 (max 0 ((dt' - 1000) / 9000)) :=
      min_le_min le_rfl (max_le_max le_rfl (by linarith))
    have hr : n / dt' ≤ n / dt :=
      (div_le_div_iff₀ hdt' hdt).mpr (mul_le_mul_of_nonneg_left hle hn)
    have hm : min 1 (n / dt') ≤ min 1 (n / dt) := min_le_min le_rfl hr
    linarith

/-- Concrete instance of `C6_amended_fill_probability` with its hypotheses
discharged. -/
theorem C6_amended_fill_probability_witness :
    (0 ≤ estimate_fill_probability 0 1 0 0 [] {} none ∧
      estimate_fill_probability 0 1 0 0 [] {} none ≤ 1) ∧
    estimate_fill_probability 0 1 0 0 [] {} none ≤
      estimate_fill_probability 0 1 0 1 [] {} none ∧
    estimate_fill_probability 1 1 0 0 [] {} none ≤
      estimate_fill_probability 0 1 0 0 [] {} none ∧
    estimate_fill_probability 0 1 0 0 [] {} none ≤
      estimate_fill_probability 0 2 0 0 [] {} none := by
  obtain ⟨h1, h2, h3, h4⟩ := C6_amended_fill_probability 0 1 1 2 0 0 1 [] none
  exact ⟨h1, h2 (by norm_num), h3 (by norm_num),
    h4 (by norm_num) (by norm_num) (by norm_num)⟩

/-- C3 counterexample: after a first `record_feedback(filled=True)` the
stored base probability is 0.86; the claim then predicts the second update
blends 0.7·0.86 + 0.3·1 = 0.902, but the code rebuilds the calibration from
the class default 0.8 and stores 0.7·0.8 + 0.3·1 = 0.86 again. -/
theorem C3_counterexample :
    (assocLookup (record_feedback {} "BTC" "open" true).calibrations "BTC").map
        FillCalibration.base_prob = some (43/50) ∧
    (assocLookup (record_feedback (record_feedback {} "BTC" "open" true)
        "BTC" "open" true).calibrations "BTC").map
        FillCalibration.base_prob = some (43/50) ∧
    ¬((43 : ℚ)/50 = 7/10 * (43/50) + 3/10 * 1) := by
  refine ⟨?_, ?_, by norm_num⟩ <;>
    norm_num [record_feedback, get_history, assocLookup, assocUpsert,
      update_calibration_from_feedback]

/-- C3 amended: each feedback event increments the cumulative filled or
missed counter and recomputes `base_prob` as 0.7 times the DEFAULT base
probability (0.8) — the previously stored calibration is not consulted —
plus 0.3 times the observed empirical fill rate filled/(filled+missed);
the other four calibration factors are reset to their defaults, and the
recomputed calibration replaces the stored one. -/
theorem C3_amended_calibration (history : FillHistory) (action : String)
    (filled : Bool) (svc : FillModelService) (coin : String) :
    ((update_calibration_from_feedback history action filled).1.feedback_count
        = history.feedback_count + 1) ∧
    ((update_calibration_from_feedback history action filled).1.filled_count
        = if filled then history.filled_count + 1 else history.filled_count) ∧
    ((update_calibration_from_feedback history action filled).1.missed_count
        = if filled then history.missed_count else history.missed_count + 1) ∧
    ((update_calibration_from_feedback history action filled).2.base_prob
        = 7/10 * (4/5) + 3/10 *
          (((update_calibration_from_feedback history action filled).1.filled_count : ℚ) /
           (((update_calibration_from_feedback history action filled).1.filled_count : ℚ) +
            ((update_calibration_from_feedback history action filled).1.missed_count : ℚ)))) ∧
    ((update_calibration_from_feedback history action filled).2.spread_factor = -(1/2) ∧
     (update_calibration_from_feedback history action filled).2.depth_factor = 3/10 ∧
     (update_calibration_from_feedback history action filled).2.volatility_factor = -(1/5) ∧
     (update_calibration_from_feedback history action filled).2.offset_factor = 2/5) ∧
    assocLookup (record_feedback svc coin action filled).calibrations coin
      = some (update_calibration_from_feedback (get_history svc coin).2 action filled).2 := by
  cases filled <;>
    simp [update_calibration_from_feedback, record_feedback, assocLookup_upsert,
      Nat.succ_ne_zero, Nat.cast_add]

/-! ## src/farmcalc/services/watcher.py — debouncer -/

/-- `AlertState` (watcher.py). -/
structure AlertState where
  consecutive_passes : ℕ := 0
  consecutive_fails : ℕ := 0
  armed : Bool := false
  last_alert_time : ℚ := 0
deriving DecidableEq, Repr

/-- One evaluation of `WatcherService._should_trigger_alert` on the state of
one `(coin, side)` key (the lazy map insertion of a default state for a new
key is the `{}` initial state). -/
def should_trigger_alert_step (state : AlertState) (score threshold : ℚ)
    (debounce_count : ℕ := 3) (hysteresis : ℚ := 5) : AlertState :=
  if threshold ≤ score then
    let passes := state.consecutive_passes + 1
    { state with
        consecutive_passes := passes
        consecutive_fails := 0
        armed := if debounce_count ≤ passes then true else state.armed }
  else
    let state := { state with consecutive_passes := 0 }
    if score ≤ threshold - hysteresis then
      let fails := state.consecutive_fails + 1
      { state with
          consecutive_fails := fails
          armed := if debounce_count ≤ fails then false else state.armed }
    else state

/-- `n` consecutive evaluations of the debouncer at a constant score. -/
def runDebounce (state : AlertState) (score threshold : ℚ) (debounce_count : ℕ)
    (hysteresis : ℚ) : ℕ → AlertState
  | 0 => state
  | n + 1 =>
      should_trigger_alert_step
        (runDebounce state score threshold debounce_count hysteresis n)
        score threshold debounce_count hysteresis

theorem runDebounce_pass (score threshold : ℚ) (dc : ℕ) (hys : ℚ)
    (hp : threshold ≤ score) (hdc : 1 ≤ dc) (n : ℕ) :
    (runDebounce {} score threshold dc hys n).consecutive_passes = n ∧
    (runDebounce {} score threshold dc hys n).armed = decide (dc ≤ n) := by
  induction n with
  | zero =>
    constructor
    · rfl
    · simp [runDebounce]
      omega
  | succ n ih =>
    obtain ⟨ihp, iha⟩ := ih
    unfold runDebounce should_trigger_alert_step
    rw [if_pos hp]
    constructor
    · simp [ihp]
    · simp only [ihp, iha]
      by_cases h : dc ≤ n + 1
      · simp [h]
      · have h' : ¬ dc ≤ n := by omega
        simp [h, h']

theorem runDebounce_fail_fails (s : AlertState) (score threshold : ℚ) (dc : ℕ)
    (hys : ℚ) (h1 : ¬ threshold ≤ score) (h2 : score ≤ threshold - hys) (n : ℕ) :
    (runDebounce s score threshold dc hys n).consecutive_fails =
      s.consecutive_fails + n := by
  induction n with
  | zero => rfl
  | succ n ih =>
    unfold runDebounce should_trigger_alert_step
    rw [if_neg h1, if_pos h2]
    simp [ih]
    omega

theorem runDebounce_fail_disarm (s : AlertState) (score threshold : ℚ) (dc : ℕ)
    (hys : ℚ) (h1 : ¬ threshold ≤ score) (h2 : score ≤ threshold - hys)
    (n : ℕ) (hn : 1 ≤ n) (hd : dc ≤ s.consecutive_fails + n) :
    (runDebounce s score threshold dc hys n).armed = false := by
  obtain ⟨m, rfl⟩ : ∃ m, n = m + 1 := ⟨n - 1, by omega⟩
  unfold runDebounce should_trigger_alert_step
  rw [if_neg h1, if_pos h2]
  have hf := runDebounce_fail_fails s score threshold dc hys h1 h2 m
  simp only [hf]
  have : dc ≤ s.consecutive_fails + m + 1 := by omega
  simp [this]

/-- C2: starting from the initial debounce state, `debounce_count`
consecutive evaluations at a score equal to the threshold arm the key; an
evaluation with a score strictly inside the hysteresis band
(`threshold - hysteresis < score < threshold`) leaves the armed flag
unchanged (neither arms nor disarms); and, from any state (armed included),
`debounce_count` consecutive evaluations at or below
`threshold - hysteresis` disarm it. -/
theorem C2_debouncer (threshold hysteresis : ℚ) (dc : ℕ)
    (hdc : 1 ≤ dc) (hhys : 0 < hysteresis) :
    (runDebounce {} threshold threshold dc hysteresis dc).armed = true ∧
    (∀ (s : AlertState) (score : ℚ), threshold - hysteresis < score →
      score < threshold →
      (should_trigger_alert_step s score threshold dc hysteresis).armed = s.armed) ∧
    (∀ (s : AlertState) (score : ℚ), score ≤ threshold - hysteresis →
      (runDebounce s score threshold dc hysteresis dc).armed = false) := by
  refine ⟨?_, ?_, ?_⟩
  · have := (runDebounce_pass threshold threshold dc hysteresis le_rfl hdc dc).2
    simp at this
    exact this
  · intro s score hband hlt
    unfold should_trigger_alert_step
    rw [if_neg (not_le.mpr hlt), if_neg (not_le.mpr hband)]
  · intro s score hle
    have h1 : ¬ threshold ≤ score := by
      intro h
      linarith
    exact runDebounce_fail_disarm s score threshold dc hysteresis h1 hle dc hdc
      (by omega)

/-- Concrete instance of `C2_debouncer` (threshold 80, hysteresis 5,
debounce count 3) with its hypotheses discharged. -/
theorem C2_debouncer_witness :
    ((1 : ℕ) ≤ 3 ∧ (0 : ℚ) < 5) ∧
    (runDebounce {} 80 80 3 5 3).armed = true ∧
    (should_trigger_alert_step { armed := true } 77 80 3 5).armed =
      AlertState.armed { armed := true } ∧
    (runDebounce { armed := true } 70 80 3 5 3).armed = false := by
  have h := C2_debouncer 80 5 3 (by norm_num) (by norm_num)
  exact ⟨⟨by norm_num, by norm_num⟩, h.1,
    h.2.1 { armed := true } 77 (by norm_num) (by norm_num),
    h.2.2 { armed := true } 70 (by norm_num)⟩

/-! ## src/farmcalc/services/watcher.py — global rate limiter -/

/-- The prune loop of `WatcherService._check_rate_limit`: pop entries from
the left while they are more than 3600 seconds old. -/
def prune_alert_times (current_time : ℚ) : List ℚ → List ℚ
  | [] => []
  | t :: rest =>
      if 3600 < current_time - t then prune_alert_times current_time rest
      else t :: rest

/-- `WatcherService._check_rate_limit`: prune, then admit iff the remaining
count is below the ceiling.  Returns the pruned deque and the verdict. -/
def check_rate_limit (alert_times : List ℚ) (current_time : ℚ)
    (max_alerts_per_hour : ℕ) : List ℚ × Bool :=
  let pruned := prune_alert_times current_time alert_times
  (pruned, decide (pruned.length < max_alerts_per_hour))

/-- `deque(maxlen=100).append`: drop the oldest entry when full. -/
def dequeAppend (q : List ℚ) (t : ℚ) (maxlen : ℕ := 100) : List ℚ :=
  if maxlen ≤ q.length then q.tail ++ [t] else q ++ [t]

/-- One pass of the single dispatcher (`_poll_loop`): check the rate limit
at `current_time` and, on admission, append the alert timestamp. -/
def dispatch_step (q : List ℚ) (current_time : ℚ) (max_alerts_per_hour : ℕ) :
    List ℚ × Bool :=
  let cr := check_rate_limit q current_time max_alerts_per_hour
  if cr.2 then (dequeAppend cr.1 current_time 100, true) else (cr.1, false)

/-- Run the dispatcher over a sequence of alert attempts (timestamps),
returning the final deque and the list of admitted timestamps. -/
def run_dispatch (q : List ℚ) (max_alerts_per_hour : ℕ) :
    List ℚ → List ℚ × List ℚ
  | [] => (q, [])
  | t :: ts =>
      let st := dispatch_step q t max_alerts_per_hour
      let rest := run_dispatch st.1 max_alerts_per_hour ts
      (rest.1, if st.2 then t :: rest.2 else rest.2)

theorem prune_split (now : ℚ) (q : List ℚ) :
    ∃ d, q = d ++ prune_alert_times now q ∧ ∀ s ∈ d, 3600 < now - s := by
  induction q with
  | nil => exact ⟨[], rfl, by simp⟩
  | cons t rest ih =>
    by_cases h : 3600 < now - t
    · obtain ⟨d, hd, hprop⟩ := ih
      refine ⟨t :: d, ?_, ?_⟩
      · simp [prune_alert_times, h]
        exact hd
      · intro s hsm
        rcases List.mem_cons.mp hsm with rfl | hsm
        · exact h
        · exact hprop s hsm
    · exact ⟨[], by simp [prune_alert_times, h], by simp⟩

/-- Inductive invariant for the rate limiter: `hs` is the full list of
previously admitted timestamps, split as the already-pruned prefix `dropped`
(all of which are expired relative to every future attempt) followed by the
current deque `q`.  Any window then holds at most `max (count in hs) N`
admitted alerts. -/
theorem run_dispatch_bound (N : ℕ) (hN : N ≤ 100) (ts : List ℚ) :
    ∀ q hs dropped : List ℚ,
      hs = dropped ++ q →
      List.Pairwise (· ≤ ·) (hs ++ ts) →
      (∀ s ∈ dropped, ∀ t ∈ ts, 3600 < t - s) →
      ∀ a : ℚ,
        (hs ++ (run_dispatch q N ts).2).countP
            (fun s => decide (a ≤ s ∧ s ≤ a + 3600))
          ≤ max (hs.countP (fun s => decide (a ≤ s ∧ s ≤ a + 3600))) N := by
  induction ts with
  | nil =>
    intro q hs dropped hsplit hsorted hdrop a
    simp [run_dispatch]
  | cons t ts ih =>
    intro q hs dropped hsplit hsorted hdrop a
    have hrun : run_dispatch q N (t :: ts) =
        (let st := dispatch_step q t N
         let rest := run_dispatch st.1 N ts
         (rest.1, if st.2 then t :: rest.2 else rest.2)) := rfl
    obtain ⟨d2, hq, hd2⟩ := prune_split t q
    set P := prune_alert_times t q with hP
    have htle : ∀ t' ∈ ts, t ≤ t' := by
      have := (List.pairwise_append.mp hsorted).2.1
      exact (List.pairwise_cons.mp this).1
    by_cases hok : P.length < N
    · -- admitted: timestamp appended
      have hstep : run_dispatch q N (t :: ts) =
          ((run_dispatch (P ++ [t]) N ts).1,
           t :: (run_dispatch (P ++ [t]) N ts).2) := by
        have hfull : ¬ (100 ≤ P.length) := by omega
        rw [hrun]
        simp only [dispatch_step, check_rate_limit, ← hP, hok,
          decide_True, if_true, dequeAppend, if_neg hfull, decide_eq_true_eq]
      have hsplit' : hs ++ [t] = (dropped ++ d2) ++ (P ++ [t]) := by
        rw [hsplit, hq]
        simp
      have hsorted' : List.Pairwise (· ≤ ·) ((hs ++ [t]) ++ ts) := by
        have h : hs ++ t :: ts = (hs ++ [t]) ++ ts := by simp
        rwa [h] at hsorted
      have hdrop' : ∀ s ∈ dropped ++ d2, ∀ t' ∈ ts, 3600 < t' - s := by
        intro s hsm t' ht'
        rcases List.mem_append.mp hsm with hsm | hsm
        · exact hdrop s hsm t' (by simp [ht'])
        · have h1 := hd2 s hsm
          have h2 := htle t' ht'
          linarith
      have hIH := ih (P ++ [t]) (hs ++ [t]) (dropped ++ d2)
        hsplit' hsorted' hdrop' a
      rw [hstep]
      have hassoc : hs ++ (t :: (run_dispatch (P ++ [t]) N ts).2)
          = (hs ++ [t]) ++ (run_dispatch (P ++ [t]) N ts).2 := by
        simp
      simp only [hassoc]
      refine le_trans hIH ?_
      by_cases hwin : a ≤ t ∧ t ≤ a + 3600
      · -- the new timestamp is inside the window: the check bounds the count
        have hcount : (hs ++ [t]).countP (fun s => decide (a ≤ s ∧ s ≤ a + 3600)) ≤ N := by
          have hzero : (dropped ++ d2).countP
              (fun s => decide (a ≤ s ∧ s ≤ a + 3600)) = 0 := by
            rw [List.countP_eq_zero]
            intro s hsm
            rcases List.mem_append.mp hsm with hsm2 | hsm2
            · have h1 := hdrop s hsm2 t (by simp)
              rcases hwin with ⟨hw1, hw2⟩
              simp only [decide_eq_true_eq, not_and]
              intro hc1
              linarith
            · have h1 := hd2 s hsm2
              rcases hwin with ⟨hw1, hw2⟩
              simp only [decide_eq_true_eq, not_and]
              intro hc1
              linarith
          rw [hsplit', List.countP_append, hzero]
          have hlen : (P ++ [t]).countP
              (fun s => decide (a ≤ s ∧ s ≤ a + 3600))
              ≤ (P ++ [t]).length := List.countP_le_length _
          simp only [List.length_append, List.length_singleton] at hlen
          omega
        omega
      · -- the new timestamp is outside the window: the count is unchanged
        have heq : (hs ++ [t]).countP (fun s => decide (a ≤ s ∧ s ≤ a + 3600))
            = hs.countP (fun s => decide (a ≤ s ∧ s ≤ a + 3600)) := by
          rw [List.countP_append]
          simp [hwin]
        omega
    · -- rejected: nothing appended, deque is the pruned list
      have hstep : run_dispatch q N (t :: ts) =
          ((run_dispatch P N ts).1, (run_dispatch P N ts).2) := by
        rw [hrun]
        simp only [dispatch_step, check_rate_limit, ← hP]
        simp [hok]
      have hsplit' : hs = (dropped ++ d2) ++ P := by
        rw [hsplit, hq]
        simp
      have hsorted' : List.Pairwise (· ≤ ·) (hs ++ ts) := by
        refine hsorted.sublist ?_
        exact List.Sublist.append_left (List.sublist_cons_self t ts) hs
      have hdrop' : ∀ s ∈ dropped ++ d2, ∀ t' ∈ ts, 3600 < t' - s := by
        intro s hsm t' ht'
        rcases List.mem_append.mp hsm with hsm | hsm
        · exact hdrop s hsm t' (by simp [ht'])
        · have h1 := hd2 s hsm
          have h2 := htle t' ht'
          linarith
      have hIH := ih P hs (dropped ++ d2) hsplit' hsorted' hdrop' a
      rw [hstep]
      exact hIH

/-- C8: with a single dispatcher whose every alert timestamp is appended
only after an admitting `_check_rate_limit` call, at most 10 (the configured
ceiling) alerts are admitted in any rolling 3600-second window
`[a, a + 3600]`, for any nondecreasing sequence of attempt times. -/
theorem C8_rate_limiter (ts : List ℚ)
    (hsorted : List.Pairwise (· ≤ ·) ts) (a : ℚ) :
    (run_dispatch [] 10 ts).2.countP
        (fun s => decide (a ≤ s ∧ s ≤ a + 3600)) ≤ 10 := by
  have h := run_dispatch_bound 10 (by norm_num) ts [] [] [] rfl
    (by simpa using hsorted) (by simp) a
  simpa using h

/-- Concrete instance of `C8_rate_limiter`: twenty attempts in the same
hour admit at most 10. -/
theorem C8_rate_limiter_witness :
    (run_dispatch [] 10
        [0, 1, 2, 3, 4, 5, 6, 7, 8, 9, 10, 11, 12, 13, 14, 15, 16, 17, 18, 19]).2.countP
        (fun s => decide ((0 : ℚ) ≤ s ∧ s ≤ 0 + 3600)) ≤ 10 :=
  C8_rate_limiter
    [0, 1, 2, 3, 4, 5, 6, 7, 8, 9, 10, 11, 12, 13, 14, 15, 16, 17, 18, 19]
    (by decide) 0

/-! ## src/farmcalc/services/calc.py (funding PnL, used by accept_proposal) -/

/-- `FundingKind` from `src/farmcalc/models/domain.py`. -/
inductive FundingKind
  | hourly
  | eight_hour
deriving DecidableEq, Repr

/-- `hourly_boundaries_crossed(hold_minutes)`: `int(hold_minutes / 60.0)`
(Python `int()` truncates toward zero). -/
def hourly_boundaries_crossed (hold_minutes : ℚ) : ℤ :=
  let hours := hold_minutes / 60
  if 0 ≤ hours then ⌊hours⌋ else ⌈hours⌉

/-- `funding_hourly_rate(funding_rate, funding_kind)`. -/
def funding_hourly_rate (funding_rate : ℚ) (funding_kind : FundingKind) : ℚ :=
  if funding_kind = FundingKind.eight_hour then funding_rate / 8 else funding_rate

/-- `funding_pnl_usd(side, notional, hourly_funding_rate, payments)`. -/
def funding_pnl_usd (side : Side) (notional hourly_funding_rate : ℚ)
    (payments : ℤ) : ℚ :=
  let side_multiplier : ℚ := (if side = Side.LONG then 1 else -1);
  -side_multiplier * notional * hourly_funding_rate * (payments : ℚ)

/-- `calculate_funding_pnl(side, notional, hourly_funding_rate,
hold_minutes, funding_kind)`. -/
def calculate_funding_pnl (side : Side) (notional hourly_funding_rate : ℚ)
    (hold_minutes : ℤ) (funding_kind : FundingKind) : ℚ :=
  let hourly_rate := funding_hourly_rate hourly_funding_rate funding_kind
  let payments := hourly_boundaries_crossed (hold_minutes : ℚ)
  funding_pnl_usd side notional hourly_rate payments

/-! ## src/farmcalc/services/proposals.py -/

/-- The `Settings` fields consumed by `accept_proposal` (env defaults). -/
structure SettingsM where
  default_taker_fee : ℚ := 45/100000
  default_maker_fee : ℚ := 15/100000
  proposal_expiry_minutes : ℚ := 15
deriving DecidableEq, Repr

/-- `ProposalStatus`. -/
inductive ProposalStatus
  | pending
  | accepted
  | rejected
  | expired
deriving DecidableEq, Repr

/-- The `suggested_prices` dict of a proposal. -/
structure SuggestedPrices where
  open_limit_px : ℚ := 0
  close_limit_px : ℚ := 0
  best_bid : ℚ := 0
  best_ask : ℚ := 0
deriving DecidableEq, Repr

/-- The `offsets` dict of a proposal. -/
structure Offsets where
  open_offset_bps : ℚ := 0
  close_offset_bps : ℚ := 0
deriving DecidableEq, Repr

/-- The `fill_probs` dict of a proposal (`.get(..., 0.8)` defaults). -/
structure FillProbs where
  open_fill_prob : ℚ := 4/5
  close_fill_prob : ℚ := 4/5
deriving DecidableEq, Repr

/-- `Trade` from `src/farmcalc/models/domain.py` (timestamps as rational
seconds). -/
structure Trade where
  id : String
  coin : String
  side : Side
  leverage : ℚ
  margin : ℚ
  notional : ℚ
  open_timestamp : ℚ
  planned_hold_min : ℤ
  expected_fees : ℚ
  expected_funding_pnl : ℚ
  open_price : Option ℚ := none
  close_price : Option ℚ := none
  close_timestamp : Option ℚ := none
  realized_pnl : Option ℚ := none
  open_limit_px : Option ℚ := none
  close_limit_px : Option ℚ := none
  fill_prob : ℚ := 1
  fallback_taker_after_sec : Option ℤ := none
  open_fee_mode : String := "maker"
  close_fee_mode : String := "maker"

/-- `Proposal` from `src/farmcalc/models/domain.py` (ISO timestamp strings
modelled as rational seconds; reasons as label strings). -/
structure Proposal where
  id : String
  coin : String
  side : Side
  score : ℚ
  reasons : List String := []
  metrics : Metrics := {}
  suggested_prices : SuggestedPrices := {}
  offsets : Offsets := {}
  fill_probs : FillProbs := {}
  margin : ℚ
  leverage : ℚ
  hold_min : ℤ
  fee_mode : String
  funding_kind : String
  funding_raw : ℚ := 0
  funding_hourly : ℚ := 0
  created_at : ℚ
  expires_at : ℚ
  message_id : Option ℤ := none
  chat_id : Option ℤ := none
  status : ProposalStatus := ProposalStatus.pending
  decided_at_utc : Option ℚ := none
  decided_by_user_id : Option ℤ := none
  decision : Option String := none

/-- `Plan` (source defaults). -/
structure Plan where
  deposit : ℚ := 1000
  default_margin : ℚ := 100
  default_leverage : ℚ := 10
  target_volume : ℚ := 10000
  target_frozen : ℚ := 0
  unfreeze_factor : ℚ := 7/4
  level_factor : ℚ := 1/4
deriving DecidableEq, Repr

/-- `Stats` (source defaults). -/
structure Stats where
  total_volume_done : ℚ := 0
  total_fees : ℚ := 0
  total_funding_pnl : ℚ := 0
  frozen_remaining : ℚ := 0
  estimated_fomo_minted : ℚ := 0
deriving DecidableEq, Repr

/-- `State` (application state); the `proposals` dict is an association
list keyed by proposal id. -/
structure StateM where
  plan : Plan := {}
  stats : Stats := {}
  trades : List Trade := []
  proposals : List (String × Proposal) := []
  watcher_enabled : Bool := true
  schema_version : ℕ := 2

/-- In-place mutation of the proposal object stored at
`state.proposals[proposal_id]`: replace the value at that key. -/
def setProposal (state : StateM) (proposal_id : String) (p : Proposal) : StateM :=
  { state with proposals := assocUpsert state.proposals proposal_id p }

theorem assocLookup_setProposal (state : StateM) (pid : String) (p : Proposal) :
    assocLookup (setProposal state pid p).proposals pid = some p :=
  assocLookup_upsert state.proposals pid p

/-- `accept_proposal(state, proposal_id, actor_user_id, settings)`; the
`datetime.now` read is the explicit `now` parameter.  Returns the created
trade (if any) and the updated state. -/
def accept_proposal (state : StateM) (proposal_id : String)
    (actor_user_id : ℤ) (now : ℚ) (settings : SettingsM) :
    Option Trade × StateM :=
  match assocLookup state.proposals proposal_id with
  | none => (none, state)
  | some proposal =>
    -- Idempotency check: if already decided, return None
    if proposal.status ≠ ProposalStatus.pending then (none, state)
    -- Check expiry
    else if proposal.expires_at < now then
      (none, setProposal state proposal_id
        { proposal with
            status := ProposalStatus.expired
            decided_at_utc := some now
            decided_by_user_id := some actor_user_id
            decision := some "EXPIRED" })
    else
      let proposal' :=
        { proposal with
            status := ProposalStatus.accepted
            decided_at_utc := some now
            decided_by_user_id := some actor_user_id
            decision := some "ACCEPT" }
      let notional := proposal.margin * proposal.leverage
      let taker_fee := settings.default_taker_fee
      let maker_fee := settings.default_maker_fee
      let open_fee_mode :=
        if proposal.fee_mode = "maker" ∨ proposal.fee_mode = "both"
        then "maker" else "taker"
      let close_fee_mode :=
        if proposal.fee_mode = "maker" then "maker"
        else if proposal.fee_mode = "both" then "maker" else "taker"
      let open_fee := notional * (if open_fee_mode = "maker" then maker_fee else taker_fee)
      let close_fee := notional * (if close_fee_mode = "maker" then maker_fee else taker_fee)
      let expected_fees := open_fee + close_fee
      let funding_kind :=
        if proposal.funding_kind = "hourly" then FundingKind.hourly
        else FundingKind.eight_hour
      let expected_funding_pnl := calculate_funding_pnl proposal.side notional
        proposal.funding_hourly proposal.hold_min funding_kind
      let trade : Trade :=
        { id := proposal_id.replace "_" "_TRADE_"
          coin := proposal.coin
          side := proposal.side
          leverage := proposal.leverage
          margin := proposal.margin
          notional := notional
          open_timestamp := now
          planned_hold_min := proposal.hold_min
          expected_fees := expected_fees
          expected_funding_pnl := expected_funding_pnl
          open_price := some proposal.suggested_prices.open_limit_px
          open_limit_px := some proposal.suggested_prices.open_limit_px
          close_limit_px := some proposal.suggested_prices.close_limit_px
          fill_prob := (proposal.fill_probs.open_fill_prob +
            proposal.fill_probs.close_fill_prob) / 2
          open_fee_mode := open_fee_mode
          close_fee_mode := close_fee_mode }
      let state' := setProposal state proposal_id proposal'
      (some trade, { state' with trades := state'.trades ++ [trade] })

/-- `reject_proposal(state, proposal_id, actor_user_id)`: idempotent
transition to REJECTED; no expiry check. -/
def reject_proposal (state : StateM) (proposal_id : String)
    (actor_user_id : ℤ) (now : ℚ) : Bool × StateM :=
  match assocLookup state.proposals proposal_id with
  | none => (false, state)
  | some proposal =>
    -- Idempotency check
    if proposal.status ≠ ProposalStatus.pending then (false, state)
    else
      (true, setProposal state proposal_id
        { proposal with
            status := ProposalStatus.rejected
            decided_at_utc := some now
            decided_by_user_id := some actor_user_id
            decision := some "REJECT" })

/-- C1: `accept` is a silent no-op on unknown ids and on already-decided
proposals (and `reject` likewise returns false without mutation); a PENDING
proposal past its expiry is transitioned to EXPIRED with nil returned; an
in-date PENDING proposal is transitioned to ACCEPTED with decider and
timestamp recorded, and a Trade derived from its frozen parameters
(notional, fee estimate by fee-mode, funding-PnL estimate) is returned and
appended. -/
theorem C1_accept_reject_lifecycle (state : StateM) (proposal_id : String)
    (actor_user_id : ℤ) (now : ℚ) (settings : SettingsM) :
    (assocLookup state.proposals proposal_id = none →
      accept_proposal state proposal_id actor_user_id now settings = (none, state) ∧
      reject_proposal state proposal_id actor_user_id now = (false, state)) ∧
    (∀ p, assocLookup state.proposals proposal_id = some p →
      p.status ≠ ProposalStatus.pending →
      accept_proposal state proposal_id actor_user_id now settings = (none, state) ∧
      reject_proposal state proposal_id actor_user_id now = (false, state)) ∧
    (∀ p, assocLookup state.proposals proposal_id = some p →
      p.status = ProposalStatus.pending → p.expires_at < now →
      (accept_proposal state proposal_id actor_user_id now settings).1 = none ∧
      assocLookup
          (accept_proposal state proposal_id actor_user_id now settings).2.proposals
          proposal_id
        = some { p with
            status := ProposalStatus.expired
            decided_at_utc := some now
            decided_by_user_id := some actor_user_id
            decision := some "EXPIRED" } ∧
      (accept_proposal state proposal_id actor_user_id now settings).2.trades
        = state.trades) ∧
    (∀ p, assocLookup state.proposals proposal_id = some p →
      p.status = ProposalStatus.pending → ¬ (p.expires_at < now) →
      ∃ trade,
        (accept_proposal state proposal_id actor_user_id now settings).1 = some trade ∧
        trade.coin = p.coin ∧
        trade.side = p.side ∧
        trade.margin = p.margin ∧
        trade.leverage = p.leverage ∧
        trade.notional = p.margin * p.leverage ∧
        trade.open_timestamp = now ∧
        trade.planned_hold_min = p.hold_min ∧
        trade.open_limit_px = some p.suggested_prices.open_limit_px ∧
        trade.close_limit_px = some p.suggested_prices.close_limit_px ∧
        ((p.fee_mode = "maker" ∨ p.fee_mode = "both") →
          trade.expected_fees = 2 * (p.margin * p.leverage) * settings.default_maker_fee) ∧
        (¬ (p.fee_mode = "maker" ∨ p.fee_mode = "both") →
          trade.expected_fees = 2 * (p.margin * p.leverage) * settings.default_taker_fee) ∧
        trade.expected_funding_pnl = calculate_funding_pnl p.side
          (p.margin * p.leverage) p.funding_hourly p.hold_min
          (if p.funding_kind = "hourly" then FundingKind.hourly
           else FundingKind.eight_hour) ∧
        assocLookup
            (accept_proposal state proposal_id actor_user_id now settings).2.proposals
            proposal_id
          = some { p with
              status := ProposalStatus.accepted
              decided_at_utc := some now
              decided_by_user_id := some actor_user_id
              decision := some "ACCEPT" } ∧
        (accept_proposal state proposal_id actor_user_id now settings).2.trades
          = state.trades ++ [trade]) := by
  refine ⟨?_, ?_, ?_, ?_⟩
  · intro h
    constructor <;> simp [accept_proposal, reject_proposal, h]
  · intro p hp hstat
    constructor <;> simp [accept_proposal, reject_proposal, hp, hstat]
  · intro p hp hpend hexp
    refine ⟨?_, ?_, ?_⟩
    · simp [accept_proposal, hp, hpend, hexp]
    · have hred : (accept_proposal state proposal_id actor_user_id now settings).2
          = setProposal state proposal_id
            { p with
                status := ProposalStatus.expired
                decided_at_utc := some now
                decided_by_user_id := some actor_user_id
                decision := some "EXPIRED" } := by
        simp [accept_proposal, hp, hpend, hexp]
      rw [hred]
      exact assocLookup_setProposal state proposal_id _
    · simp [accept_proposal, hp, hpend, hexp, setProposal]
  · intro p hp hpend hexp
    have hstat : ¬ (p.status ≠ ProposalStatus.pending) := by simp [hpend]
    simp only [accept_proposal, hp]
    rw [if_neg hstat, if_neg hexp]
    refine ⟨_, rfl, rfl, rfl, rfl, rfl, rfl, rfl, rfl, rfl, rfl, ?_, ?_, rfl, ?_, ?_⟩
    · intro hfm
      rcases hfm with h | h <;> simp [h] <;> ring
    · intro hfm
      push_neg at hfm
      simp [hfm.1, hfm.2]
      ring
    · exact assocLookup_setProposal state proposal_id _
    · simp [setProposal]

/-- A pending LONG proposal expiring at t = 900 s, keyed in a sample
application state. -/
def sampleProposal : Proposal :=
  { id := "BTC_LONG_1", coin := "BTC", side := Side.LONG, score := 90,
    margin := 100, leverage := 10, hold_min := 60, fee_mode := "maker",
    funding_kind := "hourly", created_at := 0, expires_at := 900 }

/-- Sample application state holding `sampleProposal`. -/
def sampleState : StateM := { proposals := [("BTC_LONG_1", sampleProposal)] }

/-- Concrete instance of `C1_accept_reject_lifecycle`: an unknown id is a
silent no-op, and accepting the pending in-date sample proposal at t = 100
returns a trade with the frozen parameters. -/
theorem C1_accept_reject_lifecycle_witness :
    (accept_proposal sampleState "NOPE" 7 100 {} = (none, sampleState) ∧
      reject_proposal sampleState "NOPE" 7 100 = (false, sampleState)) ∧
    (∃ trade,
      (accept_proposal sampleState "BTC_LONG_1" 7 100 {}).1 = some trade ∧
      trade.coin = sampleProposal.coin ∧
      trade.side = sampleProposal.side ∧
      trade.margin = sampleProposal.margin ∧
      trade.leverage = sampleProposal.leverage ∧
      trade.notional = sampleProposal.margin * sampleProposal.leverage ∧
      trade.open_timestamp = 100 ∧
      trade.planned_hold_min = sampleProposal.hold_min ∧
      trade.open_limit_px = some sampleProposal.suggested_prices.open_limit_px ∧
      trade.close_limit_px = some sampleProposal.suggested_prices.close_limit_px ∧
      ((sampleProposal.fee_mode = "maker" ∨ sampleProposal.fee_mode = "both") →
        trade.expected_fees = 2 * (sampleProposal.margin * sampleProposal.leverage) *
          (SettingsM.default_maker_fee {})) ∧
      (¬ (sampleProposal.fee_mode = "maker" ∨ sampleProposal.fee_mode = "both") →
        trade.expected_fees = 2 * (sampleProposal.margin * sampleProposal.leverage) *
          (SettingsM.default_taker_fee {})) ∧
      trade.expected_funding_pnl = calculate_funding_pnl sampleProposal.side
        (sampleProposal.margin * sampleProposal.leverage)
        sampleProposal.funding_hourly sampleProposal.hold_min
        (if sampleProposal.funding_kind = "hourly" then FundingKind.hourly
         else FundingKind.eight_hour) ∧
      assocLookup
          (accept_proposal sampleState "BTC_LONG_1" 7 100 {}).2.proposals
          "BTC_LONG_1"
        = some { sampleProposal with
            status := ProposalStatus.accepted
            decided_at_utc := some 100
            decided_by_user_id := some 7
            decision := some "ACCEPT" } ∧
      (accept_proposal sampleState "BTC_LONG_1" 7 100 {}).2.trades
        = sampleState.trades ++ [trade]) := by
  constructor
  · exact (C1_accept_reject_lifecycle sampleState "NOPE" 7 100 {}).1
      (by simp [sampleState, assocLookup])
  · exact (C1_accept_reject_lifecycle sampleState "BTC_LONG_1" 7 100 {}).2.2.2
      sampleProposal (by simp [sampleState, assocLookup]) rfl
      (by norm_num [sampleProposal])

/-- C10: `reject` does not check expiry: a PENDING proposal already past
`expires_at` is still transitioned to REJECTED with `true` returned,
whereas `accept` on the same state transitions it to EXPIRED and returns
nil. -/
theorem C10_reject_ignores_expiry (state : StateM) (proposal_id : String)
    (actor_user_id : ℤ) (now : ℚ) (settings : SettingsM) :
    ∀ p, assocLookup state.proposals proposal_id = some p →
      p.status = ProposalStatus.pending → p.expires_at < now →
      reject_proposal state proposal_id actor_user_id now =
        (true, setProposal state proposal_id
          { p with
              status := ProposalStatus.rejected
              decided_at_utc := some now
              decided_by_user_id := some actor_user_id
              decision := some "REJECT" }) ∧
      (accept_proposal state proposal_id actor_user_id now settings).1 = none ∧
      assocLookup
          (accept_proposal state proposal_id actor_user_id now settings).2.proposals
          proposal_id
        = some { p with
            status := ProposalStatus.expired
            decided_at_utc := some now
            decided_by_user_id := some actor_user_id
            decision := some "EXPIRED" } := by
  intro p hp hpend hexp
  refine ⟨?_, ?_, ?_⟩
  · simp [reject_proposal, hp, hpend]
  · simp [accept_proposal, hp, hpend, hexp]
  · have hred : (accept_proposal state proposal_id actor_user_id now settings).2
        = setProposal state proposal_id
          { p with
              status := ProposalStatus.expired
              decided_at_utc := some now
              decided_by_user_id := some actor_user_id
              decision := some "EXPIRED" } := by
      simp [accept_proposal, hp, hpend, hexp]
    rw [hred]
    exact assocLookup_setProposal state proposal_id _

/-- Concrete instance of `C10_reject_ignores_expiry`: the sample proposal
(expiry 900) handled at t = 1000. -/
theorem C10_reject_ignores_expiry_witness :
    reject_proposal sampleState "BTC_LONG_1" 7 1000 =
      (true, setProposal sampleState "BTC_LONG_1"
        { sampleProposal with
            status := ProposalStatus.rejected
            decided_at_utc := some 1000
            decided_by_user_id := some 7
            decision := some "REJECT" }) ∧
    (accept_proposal sampleState "BTC_LONG_1" 7 1000 {}).1 = none ∧
    assocLookup
        (accept_proposal sampleState "BTC_LONG_1" 7 1000 {}).2.proposals
        "BTC_LONG_1"
      = some { sampleProposal with
          status := ProposalStatus.expired
          decided_at_utc := some 1000
          decided_by_user_id := some 7
          decision := some "EXPIRED" } :=
  C10_reject_ignores_expiry sampleState "BTC_LONG_1" 7 1000 {} sampleProposal
    (by simp [sampleState, assocLookup]) rfl (by norm_num [sampleProposal])

end Farmcalc
